import Mathlib

/-!
Verification of the tudu-client task-management frontend.

Each definition is a shallow embedding of a function of the repository:
pure computations become Lean functions, browser storage becomes an
explicit record threaded through the functions that mutate it, and the
fetch layer is modelled by passing the HTTP response as a value.
-/

namespace Tudu

/-! ## Task status vocabulary (services/taskService.js, unnamed task-service revisions)

mapStatus maps a frontend status to the backend state vocabulary;
mapState maps a backend state back to a frontend status.  Both are
switch statements with a default branch.
-/

/-- Frontend-to-backend status mapping (switch in the task service). -/
def mapStatus (status : String) : String :=
  if status = "pending" then "Por Hacer"
  else if status = "progress" then "Haciendo"
  else if status = "completed" then "Hecho"
  else "Por Hacer"

/-- Backend-to-frontend state mapping (switch in the task service).
Note the backend literals it matches: the first case is "Por hacer"
with a lowercase h, and the results are "todo" and "done". -/
def mapState (state : String) : String :=
  if state = "Por hacer" then "todo"
  else if state = "Haciendo" then "progress"
  else if state = "Hecho" then "done"
  else "todo"

/-- Frontend-to-backend mapping duplicated in views/js/dashboardView.js. -/
def mapStatusToBackend (status : String) : String :=
  if status = "pending" then "Por Hacer"
  else if status = "progress" then "Haciendo"
  else if status = "completed" then "Hecho"
  else "Por Hacer"

/-! ## Tasks and statistics (services/taskService.js) -/

/-- The slice of a task relevant to status bookkeeping: its status field,
absent when the backend supplied none. -/
structure Task where
  status : Option String
deriving DecidableEq, Repr

/-- The statistics record built by getTaskStats. -/
structure TaskStats where
  pending : Nat
  progress : Nat
  completed : Nat
  total : Nat
deriving DecidableEq, Repr

/-- getTaskStats of services/taskService.js, applied to the task list the
service fetched: three status filters plus the list length. -/
def getTaskStats (tasks : List Task) : TaskStats :=
  { pending := (tasks.filter (fun t => t.status == some "pending")).length
    progress := (tasks.filter (fun t => t.status == some "progress")).length
    completed := (tasks.filter (fun t => t.status == some "completed")).length
    total := tasks.length }

/-! ## Browser storage and the auth/session module (services/userService.js)

A stored JWT is used only through the platform primitives
JSON.parse(atob(token.split(".")[1])): either that decode succeeds and
yields a payload with an exp claim, or it throws.  A stored token is
therefore represented by its decode outcome, with the exp claim as a
rational number (Date.now() / 1000 is fractional).
-/

/-- A stored (nonempty) token string, represented by what decoding its
payload yields: an exp claim, or a decode failure. -/
inductive TokenVal where
  | decodes (exp : ℚ)
  | undecodable
deriving DecidableEq, Repr

/-- One browser storage area; the fields are the keys the user service
touches, each absent or present. -/
structure Storage where
  token : Option TokenVal
  userId : Option String
  userEmail : Option String
  userName : Option String
  userFirstName : Option String
deriving DecidableEq, Repr

/-- The empty storage area. -/
def Storage.empty : Storage :=
  { token := none, userId := none, userEmail := none
    userName := none, userFirstName := none }

/-- The browser state the user service reads and writes: localStorage,
sessionStorage and the location hash. -/
structure BrowserState where
  localStorage : Storage
  sessionStorage : Storage
  hash : String
deriving DecidableEq, Repr

/-- isAuthenticated of services/userService.js: reads the localStorage
token; with no token it returns false; decoding the payload compares the
exp claim with the current time; a decode failure is caught, removes the
sessionStorage token, and returns false.  The result pairs the returned
boolean with the browser state after the call. -/
def isAuthenticated (st : BrowserState) (now : ℚ) : Bool × BrowserState :=
  match st.localStorage.token with
  | none => (false, st)
  | some tv =>
    match tv with
    | .decodes exp => (decide (exp > now), st)
    | .undecodable =>
      (false, { st with sessionStorage := { st.sessionStorage with token := none } })

/-- The remote logout call: succeeds or fails (network or HTTP error). -/
def remoteLogout (remoteOk : Bool) : Except String Unit :=
  if remoteOk then .ok () else .error "logout failed"

/-- logoutUser of services/userService.js: when a sessionStorage token is
present it attempts the remote logout, catching any failure; it then
removes token, userId and userEmail from sessionStorage, removes token,
userId, userEmail, userName and userFirstName from localStorage, and
redirects to the sign-in route. -/
def logoutUser (st : BrowserState) (remoteOk : Bool) : BrowserState :=
  let afterRemote :=
    match st.sessionStorage.token with
    | some _ =>
      match remoteLogout remoteOk with
      | .ok _ => st
      | .error _ => st
    | none => st
  { localStorage :=
      { afterRemote.localStorage with
        token := none, userId := none, userEmail := none
        userName := none, userFirstName := none }
    sessionStorage :=
      { afterRemote.sessionStorage with
        token := none, userId := none, userEmail := none }
    hash := "#/sign-in" }

/-! ## Sign-up form validation (views/js/signUpView.js and routes/route.js)

Two coexisting revisions of the sign-up controller validate the form:
views/js/signUpView.js and the inline initSignup of routes/route.js.
Both gate the submit button on a `valid` flag recomputed on each input
event.  The JS regular expressions are embedded by their exact matching
semantics on the character list of the string.
-/

/-- The characters the \s class of the JS regexes matches (the ones
relevant to these ASCII-oriented forms). -/
def jsWhitespace (c : Char) : Bool :=
  c = ' ' || c = '\t' || c = '\n' || c = '\r' || c = '\x0b' || c = '\x0c' || c = '\u00A0'

/-- The platform String.prototype.trim, removing leading and trailing
whitespace from the character list of the string. -/
def jsTrim (s : String) : String :=
  ⟨((s.data.dropWhile jsWhitespace).reverse.dropWhile jsWhitespace).reverse⟩

/-- A character the [^\s@] class of the email regex accepts. -/
def emailOkChar (c : Char) : Bool :=
  !(jsWhitespace c) && c != '@'

/-- The test /^[^\s@]+@[^\s@]+\.[^\s@]+$/ used by every email check: the
string splits as a nonempty local part, one at sign, and a nonempty
remainder containing a dot that is neither its first nor its last
character, with no whitespace and no further at sign anywhere. -/
def emailRegexTest (s : String) : Bool :=
  let cs := s.data
  (List.range cs.length).any fun i =>
    cs.get? i == some '@'
      && !(cs.take i).isEmpty
      && (cs.take i).all emailOkChar
      && !(cs.drop (i + 1)).isEmpty
      && (cs.drop (i + 1)).all emailOkChar
      && ((List.range (cs.drop (i + 1)).length).any fun j =>
            (cs.drop (i + 1)).get? j == some '.'
              && decide (0 < j) && decide (j + 1 < (cs.drop (i + 1)).length))

/-- The special characters of the signUpView.js password class. -/
def signUpSpecials : List Char := ['@', '$', '!', '%', '*', '?', '&', '#']

/-- A character of the signUpView.js password class [A-Za-z\d@$!%*?&#]. -/
def signUpPasswordChar (c : Char) : Bool :=
  c.isUpper || c.isLower || c.isDigit || signUpSpecials.contains c

/-- The signUpView.js password test
/^(?=.*[a-z])(?=.*[A-Z])(?=.*\d)(?=.*[@$!%*?&#])[A-Za-z\d@$!%*?&#]{8,}$/:
at least 8 characters, all from the class, with a lowercase letter, an
uppercase letter, a digit and one of the listed special characters. -/
def signUpPasswordTest (s : String) : Bool :=
  decide (8 ≤ s.length) && s.data.all signUpPasswordChar
    && s.data.any Char.isLower && s.data.any Char.isUpper
    && s.data.any Char.isDigit && s.data.any (fun c => signUpSpecials.contains c)

/-- The special characters of the route.js password class (no #). -/
def routeSpecials : List Char := ['@', '$', '!', '%', '*', '?', '&']

/-- A character of the route.js password class [A-Za-z\d@$!%*?&]. -/
def routePasswordChar (c : Char) : Bool :=
  c.isUpper || c.isLower || c.isDigit || routeSpecials.contains c

/-- The route.js initSignup password test
/^(?=.*[a-z])(?=.*[A-Z])(?=.*\d)[A-Za-z\d@$!%*?&]{8,}$/: as the
signUpView.js test but with no special-character lookahead. -/
def routePasswordTest (s : String) : Bool :=
  decide (8 ≤ s.length) && s.data.all routePasswordChar
    && s.data.any Char.isLower && s.data.any Char.isUpper
    && s.data.any Char.isDigit

/-- The test /^\d+$/ applied to the age field. -/
def ageRegexTest (s : String) : Bool :=
  !s.data.isEmpty && s.data.all Char.isDigit

/-- The value Number gives a string of decimal digits. -/
def jsNumberOfDigits (s : String) : Nat :=
  s.data.foldl (fun acc c => 10 * acc + (c.toNat - 48)) 0

namespace SignUpView

/-- validateForm of views/js/signUpView.js on the four trimmed input
values: the `valid` flag is true exactly when the email matches the email
regex, the password matches the password regex, password and confirmation
agree, and the age is a digit string whose value is at least 13. -/
def validateForm (email password confirm age : String) : Bool :=
  emailRegexTest (jsTrim email) && signUpPasswordTest (jsTrim password)
    && (jsTrim password == jsTrim confirm)
    && (ageRegexTest (jsTrim age) && decide (13 ≤ jsNumberOfDigits (jsTrim age)))

/-- The submit button state set by validateForm: disabled unless valid. -/
def submitButtonDisabled (email password confirm age : String) : Bool :=
  !(validateForm email password confirm age)

end SignUpView

namespace RouteSignup

/-- validateForm of the initSignup duplicated inline in routes/route.js:
as the signUpView.js version but with the weaker password regex. -/
def validateForm (email password confirm age : String) : Bool :=
  emailRegexTest (jsTrim email) && routePasswordTest (jsTrim password)
    && (jsTrim password == jsTrim confirm)
    && (ageRegexTest (jsTrim age) && decide (13 ≤ jsNumberOfDigits (jsTrim age)))

/-- The submit button state set by that validateForm. -/
def submitButtonDisabled (email password confirm age : String) : Bool :=
  !(validateForm email password confirm age)

end RouteSignup

/-! ## Router (routes/route.js)

handleRoute reads location.hash, extracts the path segment, matches it
against the fixed known-route list with a fallback to home, and loadView
fetches the fragment for the chosen name and runs the initializer whose
name matches.  No route of any revision is parameterized: the known list
is always the same five literals.
-/

/-- The known-route list of handleRoute. -/
def knownRoutes : List String := ["home", "board", "sign-in", "sign-up", "dashboard"]

/-- The path handleRoute extracts from location.hash:
(location.hash.startsWith("#/") ? location.hash.slice(2) : "") || "home". -/
def routePath (hash : String) : String :=
  let p : String := if hash.data.take 2 = ['#', '/'] then ⟨hash.data.drop 2⟩ else ""
  if p = "" then "home" else p

/-- The route handleRoute selects: the extracted path when known,
otherwise home. -/
def handleRoute (hash : String) : String :=
  if knownRoutes.contains (routePath hash) then routePath hash else "home"

/-- The initializer loadView invokes after injecting the fragment of the
given view name; none when no initializer matches the name. -/
def loadView (name : String) : Option String :=
  if name = "home" then some "initHome"
  else if name = "board" then some "initBoard"
  else if name = "sign-up" then some "initSignup"
  else if name = "sign-in" then some "initSignin"
  else if name = "dashboard" then some "initDashboard"
  else none

/-! ## HTTP client wrapper (api/http.js)

The fetch result is passed as a value: its status, whether the
content-type announced JSON, and the parsed body when parsing succeeded.
request returns the payload on an ok status and otherwise throws an
Error whose message chains payload?.message || payload?.error || the
HTTP-status fallback under JS truthiness (the empty string is falsy).
-/

/-- The message and error fields of a parsed JSON response body. -/
structure JsonBody where
  message : Option String
  error : Option String
deriving DecidableEq, Repr

/-- A fetch response: status code, whether the content-type includes
application/json, and the parsed body (none when parsing failed). -/
structure HttpResponse where
  status : Nat
  isJson : Bool
  body : Option JsonBody
deriving DecidableEq, Repr

/-- res.ok of the Fetch API: status in the range 200 to 299. -/
def statusOk (status : Nat) : Bool :=
  decide (200 ≤ status) && decide (status < 300)

/-- The payload request works with: the parsed body when the response
announced JSON, otherwise null. -/
def payloadOf (res : HttpResponse) : Option JsonBody :=
  if res.isJson then res.body else none

/-- JS truthiness of an optional string field: an absent field and the
empty string are falsy. -/
def truthyString (s : Option String) : Option String :=
  match s with
  | some v => if v = "" then none else some v
  | none => none

/-- The thrown message payload?.message || payload?.error || "HTTP status". -/
def errorMessageOf (payload : Option JsonBody) (status : Nat) : String :=
  match truthyString (payload.bind JsonBody.message) with
  | some m => m
  | none =>
    match truthyString (payload.bind JsonBody.error) with
    | some e => e
    | none => "HTTP " ++ toString status

/-- request of api/http.js on a completed fetch: the parsed payload on an
ok status, otherwise an Error with the chained message. -/
def request (res : HttpResponse) : Except String (Option JsonBody) :=
  if statusOk res.status then .ok (payloadOf res)
  else .error (errorMessageOf (payloadOf res) res.status)

/-! ## Dashboard status normalization (views/js/dashboardView.js)

renderTasks normalizes each fetched task status through a lookup object
keyed by the lowercased status, defaulting to pending, and pushes the
task onto the matching kanban column bucket.
-/

/-- The platform String.prototype.toLowerCase on the character list. -/
def jsToLowerCase (s : String) : String :=
  ⟨s.data.map Char.toLower⟩

/-- The keys of the statusMap lookup object. -/
def statusKeys : List String :=
  ["pending", "pendiente", "en_progreso", "progress", "in_progress",
   "completed", "completada", "done"]

/-- The own property names of Object.prototype: a bracket lookup on an
object literal that misses the own keys walks the prototype chain and
finds these, yielding a truthy non-string value (an inherited function,
or Object.prototype itself for the __proto__ accessor). -/
def protoKeys : List String :=
  ["constructor", "hasOwnProperty", "isPrototypeOf", "propertyIsEnumerable",
   "toLocaleString", "toString", "valueOf", "__proto__",
   "__defineGetter__", "__defineSetter__", "__lookupGetter__", "__lookupSetter__"]

/-- The outcome of the JS property read statusMap[key]. -/
inductive LookupResult where
  | found (v : String)
  | inherited
  | absent
deriving DecidableEq, Repr

/-- statusMap[key]: an own key yields its status string; a key naming an
inherited Object.prototype property yields that inherited value; any
other key yields undefined. -/
def statusMapLookup (key : String) : LookupResult :=
  if key = "pending" then .found "pending"
  else if key = "pendiente" then .found "pending"
  else if key = "en_progreso" then .found "progress"
  else if key = "progress" then .found "progress"
  else if key = "in_progress" then .found "progress"
  else if key = "completed" then .found "completed"
  else if key = "completada" then .found "completed"
  else if key = "done" then .found "completed"
  else if key ∈ protoKeys then .inherited
  else .absent

/-- What normalizeStatus returns: a status string, or the truthy
non-string value inherited from Object.prototype. -/
inductive NormalizedStatus where
  | str (s : String)
  | junk
deriving DecidableEq, Repr

/-- normalizeStatus of the dashboard: statusMap[status?.toLowerCase()]
|| "pending".  A missing status (the optional chaining yields undefined,
coerced to an absent key) and an unrecognized status default to pending;
an own key yields its mapped status; a key hitting an inherited
Object.prototype property yields that truthy non-string value, so the
pending default never fires for it. -/
def normalizeStatus (status : Option String) : NormalizedStatus :=
  match status with
  | none => .str "pending"
  | some s =>
    match statusMapLookup (jsToLowerCase s) with
    | .found v => .str v
    | .inherited => .junk
    | .absent => .str "pending"

/-- True when the lowercased status names an inherited Object.prototype
property, the one case where normalizeStatus yields a non-string. -/
def hitsProto (status : Option String) : Bool :=
  match status with
  | none => false
  | some s => decide ((jsToLowerCase s) ∈ protoKeys)

/-- The three kanban column buckets tasksByStatus. -/
structure Buckets where
  pending : List Task
  progress : List Task
  completed : List Task
deriving DecidableEq, Repr

/-- One step of the tasks.forEach loop: push the task onto the bucket of
its normalized status.  The guard if (tasksByStatus[normalizedStatus])
fails for the inherited non-string value (its stringification is no key
of tasksByStatus), dropping such a task from every bucket. -/
def addToBuckets (b : Buckets) (t : Task) : Buckets :=
  match normalizeStatus t.status with
  | .str ns =>
    if ns = "pending" then { b with pending := b.pending ++ [t] }
    else if ns = "progress" then { b with progress := b.progress ++ [t] }
    else if ns = "completed" then { b with completed := b.completed ++ [t] }
    else b
  | .junk => b

/-- The bucket assignment of the whole fetched task list. -/
def bucketize (tasks : List Task) : Buckets :=
  tasks.foldl addToBuckets ⟨[], [], []⟩

/-- The total number of tasks placed in the three buckets. -/
def bucketsSize (b : Buckets) : Nat :=
  b.pending.length + b.progress.length + b.completed.length

end Tudu

namespace Tudu

/-- C1: for the three canonical frontend statuses, the round trip through
mapStatus and mapState does not restore the original: it yields "todo",
"progress" and "done", so only "progress" survives the round trip. -/
theorem mapState_mapStatus_roundtrip :
    mapState (mapStatus "pending") = "todo"
      ∧ mapState (mapStatus "progress") = "progress"
      ∧ mapState (mapStatus "completed") = "done" := by
  decide

/-- C2 counterexample: a single task with status "other" gives total 1
while the three per-status counts sum to 0, so the counts do not sum to
the number of tasks for every list. -/
theorem getTaskStats_sum_counterexample :
    (getTaskStats [⟨some "other"⟩]).total = 1
      ∧ (getTaskStats [⟨some "other"⟩]).pending
          + (getTaskStats [⟨some "other"⟩]).progress
          + (getTaskStats [⟨some "other"⟩]).completed = 0 := by
  decide

/-- C2 (amended): getTaskStats has total equal to the list length and each
per-status field equal to the count of tasks with that status, and when
every status is one of the three canonical ones the three counts sum to
the length. -/
theorem getTaskStats_spec (tasks : List Task) :
    (getTaskStats tasks).total = tasks.length
      ∧ (getTaskStats tasks).pending
          = tasks.countP (fun t => t.status == some "pending")
      ∧ (getTaskStats tasks).progress
          = tasks.countP (fun t => t.status == some "progress")
      ∧ (getTaskStats tasks).completed
          = tasks.countP (fun t => t.status == some "completed")
      ∧ ((∀ t ∈ tasks, t.status = some "pending" ∨ t.status = some "progress"
            ∨ t.status = some "completed") →
          (getTaskStats tasks).pending + (getTaskStats tasks).progress
            + (getTaskStats tasks).completed = tasks.length) := by
  refine ⟨rfl, ?_, ?_, ?_, ?_⟩
  · simp [getTaskStats, List.countP_eq_length_filter]
  · simp [getTaskStats, List.countP_eq_length_filter]
  · simp [getTaskStats, List.countP_eq_length_filter]
  · intro h
    simp only [getTaskStats]
    induction tasks with
    | nil => simp
    | cons t ts ih =>
      have ht := h t (List.mem_cons_self t ts)
      have hts : ∀ u ∈ ts, u.status = some "pending" ∨ u.status = some "progress"
          ∨ u.status = some "completed" := fun u hu => h u (List.mem_cons_of_mem t hu)
      have ihs := ih hts
      rcases ht with h1 | h1 | h1 <;>
        simp [List.filter_cons, h1] <;> omega

/-- C2 witness: a concrete list with canonical statuses where the counts
sum to the total. -/
theorem getTaskStats_spec_witness :
    (getTaskStats [⟨some "pending"⟩, ⟨some "completed"⟩]).pending
        + (getTaskStats [⟨some "pending"⟩, ⟨some "completed"⟩]).progress
        + (getTaskStats [⟨some "pending"⟩, ⟨some "completed"⟩]).completed
      = ([⟨some "pending"⟩, ⟨some "completed"⟩] : List Task).length :=
  (getTaskStats_spec [⟨some "pending"⟩, ⟨some "completed"⟩]).2.2.2.2 (by decide)

/-- C3: isAuthenticated returns false with no stored token, false when the
decoded exp claim is not later than the current time, and true when the
token decodes with an exp claim later than the current time. -/
theorem isAuthenticated_spec (st : BrowserState) (now : ℚ) :
    (st.localStorage.token = none → (isAuthenticated st now).1 = false)
      ∧ (∀ e, st.localStorage.token = some (.decodes e) → e ≤ now →
          (isAuthenticated st now).1 = false)
      ∧ (∀ e, st.localStorage.token = some (.decodes e) → now < e →
          (isAuthenticated st now).1 = true) := by
  refine ⟨fun h => ?_, fun e h he => ?_, fun e h he => ?_⟩
  · simp [isAuthenticated, h]
  · simp [isAuthenticated, h, not_lt.mpr he]
  · simp [isAuthenticated, h, he]

/-- C3 witness: concrete states for each of the three cases. -/
theorem isAuthenticated_spec_witness :
    (isAuthenticated ⟨Storage.empty, Storage.empty, ""⟩ 5).1 = false
      ∧ (isAuthenticated
          ⟨{ Storage.empty with token := some (.decodes 3) }, Storage.empty, ""⟩ 5).1
          = false
      ∧ (isAuthenticated
          ⟨{ Storage.empty with token := some (.decodes 9) }, Storage.empty, ""⟩ 5).1
          = true :=
  ⟨(isAuthenticated_spec ⟨Storage.empty, Storage.empty, ""⟩ 5).1 rfl,
   (isAuthenticated_spec
      ⟨{ Storage.empty with token := some (.decodes 3) }, Storage.empty, ""⟩ 5).2.1
      3 rfl (by norm_num),
   (isAuthenticated_spec
      ⟨{ Storage.empty with token := some (.decodes 9) }, Storage.empty, ""⟩ 5).2.2
      9 rfl (by norm_num)⟩

/-- C4 counterexample: with an undecodable token in localStorage (and in
sessionStorage), the check returns false but the localStorage token is
still present afterwards, so a token does remain in storage. -/
theorem isAuthenticated_clear_counterexample :
    (isAuthenticated
        ⟨{ Storage.empty with token := some .undecodable },
         { Storage.empty with token := some .undecodable }, ""⟩ 0).1 = false
      ∧ (isAuthenticated
          ⟨{ Storage.empty with token := some .undecodable },
           { Storage.empty with token := some .undecodable }, ""⟩ 0).2.localStorage.token
          = some .undecodable := by
  decide

/-- C4 (amended): when the stored token cannot be decoded, the check
returns false and removes only the sessionStorage token key; the
localStorage and the rest of the state are unchanged, so the undecodable
localStorage token remains stored. -/
theorem isAuthenticated_undecodable (st : BrowserState) (now : ℚ)
    (h : st.localStorage.token = some .undecodable) :
    (isAuthenticated st now).1 = false
      ∧ (isAuthenticated st now).2
          = { st with sessionStorage := { st.sessionStorage with token := none } } := by
  simp [isAuthenticated, h]

/-- C4 witness: the amended behavior at a concrete state. -/
theorem isAuthenticated_undecodable_witness :
    (isAuthenticated
        ⟨{ Storage.empty with token := some .undecodable },
         { Storage.empty with token := some .undecodable }, ""⟩ 0).1 = false
      ∧ (isAuthenticated
          ⟨{ Storage.empty with token := some .undecodable },
           { Storage.empty with token := some .undecodable }, ""⟩ 0).2
          = ⟨{ Storage.empty with token := some .undecodable }, Storage.empty, ""⟩ :=
  isAuthenticated_undecodable
    ⟨{ Storage.empty with token := some .undecodable },
     { Storage.empty with token := some .undecodable }, ""⟩ 0 rfl

/-- C9: logoutUser clears the session state in both storage areas (token,
userId, userEmail in sessionStorage; those plus userName and
userFirstName in localStorage) and redirects to the sign-in route,
whether the remote logout call succeeds or fails. -/
theorem logoutUser_clears (st : BrowserState) (remoteOk : Bool) :
    (logoutUser st remoteOk).localStorage.token = none
      ∧ (logoutUser st remoteOk).localStorage.userId = none
      ∧ (logoutUser st remoteOk).localStorage.userEmail = none
      ∧ (logoutUser st remoteOk).localStorage.userName = none
      ∧ (logoutUser st remoteOk).localStorage.userFirstName = none
      ∧ (logoutUser st remoteOk).sessionStorage.token = none
      ∧ (logoutUser st remoteOk).sessionStorage.userId = none
      ∧ (logoutUser st remoteOk).sessionStorage.userEmail = none
      ∧ (logoutUser st remoteOk).hash = "#/sign-in" := by
  cases h : st.sessionStorage.token <;> cases remoteOk <;>
    simp [logoutUser, remoteLogout, h]

/-- A string with no at sign fails the email regex. -/
lemma emailRegexTest_eq_false_of_no_at (s : String)
    (h : s.data.all (fun c => c != '@') = true) : emailRegexTest s = false := by
  cases he : emailRegexTest s with
  | false => rfl
  | true =>
    exfalso
    unfold emailRegexTest at he
    simp only [List.any_eq_true] at he
    obtain ⟨i, _, hpred⟩ := he
    simp only [Bool.and_eq_true, beq_iff_eq] at hpred
    have h1 : s.data.get? i = some '@' := hpred.1.1.1.1.1
    have hm : '@' ∈ s.data := List.get?_mem h1
    rw [List.all_eq_true] at h
    have := h '@' hm
    simp at this

/-- A password shorter than 8 characters fails the signUpView.js test. -/
lemma signUpPasswordTest_eq_false_of_short (s : String)
    (h : s.length < 8) : signUpPasswordTest s = false := by
  unfold signUpPasswordTest
  rw [decide_eq_false (by omega)]
  simp

/-- A password with no lowercase letter fails the signUpView.js test. -/
lemma signUpPasswordTest_eq_false_of_no_lower (s : String)
    (h : s.data.any Char.isLower = false) : signUpPasswordTest s = false := by
  unfold signUpPasswordTest
  rw [h]
  simp

/-- A password with no uppercase letter fails the signUpView.js test. -/
lemma signUpPasswordTest_eq_false_of_no_upper (s : String)
    (h : s.data.any Char.isUpper = false) : signUpPasswordTest s = false := by
  unfold signUpPasswordTest
  rw [h]
  simp

/-- A password with no digit fails the signUpView.js test. -/
lemma signUpPasswordTest_eq_false_of_no_digit (s : String)
    (h : s.data.any Char.isDigit = false) : signUpPasswordTest s = false := by
  unfold signUpPasswordTest
  rw [h]
  simp

/-- A password with none of the listed special characters fails the
signUpView.js test. -/
lemma signUpPasswordTest_eq_false_of_no_special (s : String)
    (h : s.data.any (fun c => signUpSpecials.contains c) = false) :
    signUpPasswordTest s = false := by
  unfold signUpPasswordTest
  rw [h]
  simp

/-- A password shorter than 8 characters fails the route.js test. -/
lemma routePasswordTest_eq_false_of_short (s : String)
    (h : s.length < 8) : routePasswordTest s = false := by
  unfold routePasswordTest
  rw [decide_eq_false (by omega)]
  simp

/-- A password with no lowercase letter fails the route.js test. -/
lemma routePasswordTest_eq_false_of_no_lower (s : String)
    (h : s.data.any Char.isLower = false) : routePasswordTest s = false := by
  unfold routePasswordTest
  rw [h]
  simp

/-- A password with no uppercase letter fails the route.js test. -/
lemma routePasswordTest_eq_false_of_no_upper (s : String)
    (h : s.data.any Char.isUpper = false) : routePasswordTest s = false := by
  unfold routePasswordTest
  rw [h]
  simp

/-- A password with no digit fails the route.js test. -/
lemma routePasswordTest_eq_false_of_no_digit (s : String)
    (h : s.data.any Char.isDigit = false) : routePasswordTest s = false := by
  unfold routePasswordTest
  rw [h]
  simp

/-- C5 counterexample: the route.js revision of the sign-up validateForm
accepts the password "Abcd1234", which contains no special character at
all (every character is a letter or a digit), so the submit button is
enabled for a password missing a special character. -/
theorem routeSignup_no_special_counterexample :
    RouteSignup.validateForm "a@b.com" "Abcd1234" "Abcd1234" "20" = true
      ∧ RouteSignup.submitButtonDisabled "a@b.com" "Abcd1234" "Abcd1234" "20" = false
      ∧ ("Abcd1234".data.all (fun c => c.isUpper || c.isLower || c.isDigit)) = true := by
  decide

/-- C5 (amended): the signUpView.js validateForm leaves the submit
button disabled for an email with no at sign, for a password shorter
than 8 characters or missing a lowercase letter, an uppercase letter, a
digit or a special character, and for a digit-string age below 13; the
inline validateForm of routes/route.js leaves its submit button disabled
under the same email, length, letter-case, digit and age clauses, but
does not require a special character. -/
theorem signup_validateForm_rejects (email password confirm age : String) :
    ((((jsTrim email).data.all (fun c => c != '@')) = true
        ∨ (jsTrim password).length < 8
        ∨ ((jsTrim password).data.any Char.isLower) = false
        ∨ ((jsTrim password).data.any Char.isUpper) = false
        ∨ ((jsTrim password).data.any Char.isDigit) = false
        ∨ ((jsTrim password).data.any (fun c => signUpSpecials.contains c)) = false
        ∨ (ageRegexTest (jsTrim age) = true ∧ jsNumberOfDigits (jsTrim age) < 13)) →
      SignUpView.submitButtonDisabled email password confirm age = true)
    ∧ ((((jsTrim email).data.all (fun c => c != '@')) = true
        ∨ (jsTrim password).length < 8
        ∨ ((jsTrim password).data.any Char.isLower) = false
        ∨ ((jsTrim password).data.any Char.isUpper) = false
        ∨ ((jsTrim password).data.any Char.isDigit) = false
        ∨ (ageRegexTest (jsTrim age) = true ∧ jsNumberOfDigits (jsTrim age) < 13)) →
      RouteSignup.submitButtonDisabled email password confirm age = true) := by
  constructor
  · intro h
    unfold SignUpView.submitButtonDisabled
    rw [Bool.not_eq_true']
    unfold SignUpView.validateForm
    rcases h with h | h | h | h | h | h | h
    · rw [emailRegexTest_eq_false_of_no_at _ h]
      simp
    · rw [signUpPasswordTest_eq_false_of_short _ h]
      simp
    · rw [signUpPasswordTest_eq_false_of_no_lower _ h]
      simp
    · rw [signUpPasswordTest_eq_false_of_no_upper _ h]
      simp
    · rw [signUpPasswordTest_eq_false_of_no_digit _ h]
      simp
    · rw [signUpPasswordTest_eq_false_of_no_special _ h]
      simp
    · rw [decide_eq_false (by omega : ¬ 13 ≤ jsNumberOfDigits (jsTrim age))]
      simp
  · intro h
    unfold RouteSignup.submitButtonDisabled
    rw [Bool.not_eq_true']
    unfold RouteSignup.validateForm
    rcases h with h | h | h | h | h | h
    · rw [emailRegexTest_eq_false_of_no_at _ h]
      simp
    · rw [routePasswordTest_eq_false_of_short _ h]
      simp
    · rw [routePasswordTest_eq_false_of_no_lower _ h]
      simp
    · rw [routePasswordTest_eq_false_of_no_upper _ h]
      simp
    · rw [routePasswordTest_eq_false_of_no_digit _ h]
      simp
    · rw [decide_eq_false (by omega : ¬ 13 ≤ jsNumberOfDigits (jsTrim age))]
      simp

/-- C5 witness: concrete rejected inputs for each clause of the amended
claim, in both the signUpView.js revision and the route.js revision. -/
theorem signup_validateForm_rejects_witness :
    SignUpView.submitButtonDisabled "nodomain" "Abcd123!" "Abcd123!" "20" = true
      ∧ SignUpView.submitButtonDisabled "a@b.com" "Ab1!" "Ab1!" "20" = true
      ∧ SignUpView.submitButtonDisabled "a@b.com" "ABCD123!" "ABCD123!" "20" = true
      ∧ SignUpView.submitButtonDisabled "a@b.com" "abcd123!" "abcd123!" "20" = true
      ∧ SignUpView.submitButtonDisabled "a@b.com" "Abcdefg!" "Abcdefg!" "20" = true
      ∧ SignUpView.submitButtonDisabled "a@b.com" "Abcd1234" "Abcd1234" "20" = true
      ∧ SignUpView.submitButtonDisabled "a@b.com" "Abcd123!" "Abcd123!" "12" = true
      ∧ RouteSignup.submitButtonDisabled "nodomain" "Abcd1234" "Abcd1234" "20" = true
      ∧ RouteSignup.submitButtonDisabled "a@b.com" "Ab1?" "Ab1?" "20" = true
      ∧ RouteSignup.submitButtonDisabled "a@b.com" "ABCD1234" "ABCD1234" "20" = true
      ∧ RouteSignup.submitButtonDisabled "a@b.com" "abcd1234" "abcd1234" "20" = true
      ∧ RouteSignup.submitButtonDisabled "a@b.com" "Abcdefgh" "Abcdefgh" "20" = true
      ∧ RouteSignup.submitButtonDisabled "a@b.com" "Abcd1234" "Abcd1234" "12" = true :=
  ⟨(signup_validateForm_rejects "nodomain" "Abcd123!" "Abcd123!" "20").1
      (Or.inl (by decide)),
   (signup_validateForm_rejects "a@b.com" "Ab1!" "Ab1!" "20").1
      (Or.inr (Or.inl (by decide))),
   (signup_validateForm_rejects "a@b.com" "ABCD123!" "ABCD123!" "20").1
      (Or.inr (Or.inr (Or.inl (by decide)))),
   (signup_validateForm_rejects "a@b.com" "abcd123!" "abcd123!" "20").1
      (Or.inr (Or.inr (Or.inr (Or.inl (by decide))))),
   (signup_validateForm_rejects "a@b.com" "Abcdefg!" "Abcdefg!" "20").1
      (Or.inr (Or.inr (Or.inr (Or.inr (Or.inl (by decide)))))),
   (signup_validateForm_rejects "a@b.com" "Abcd1234" "Abcd1234" "20").1
      (Or.inr (Or.inr (Or.inr (Or.inr (Or.inr (Or.inl (by decide))))))),
   (signup_validateForm_rejects "a@b.com" "Abcd123!" "Abcd123!" "12").1
      (Or.inr (Or.inr (Or.inr (Or.inr (Or.inr (Or.inr (by decide))))))),
   (signup_validateForm_rejects "nodomain" "Abcd1234" "Abcd1234" "20").2
      (Or.inl (by decide)),
   (signup_validateForm_rejects "a@b.com" "Ab1?" "Ab1?" "20").2
      (Or.inr (Or.inl (by decide))),
   (signup_validateForm_rejects "a@b.com" "ABCD1234" "ABCD1234" "20").2
      (Or.inr (Or.inr (Or.inl (by decide)))),
   (signup_validateForm_rejects "a@b.com" "abcd1234" "abcd1234" "20").2
      (Or.inr (Or.inr (Or.inr (Or.inl (by decide))))),
   (signup_validateForm_rejects "a@b.com" "Abcdefgh" "Abcdefgh" "20").2
      (Or.inr (Or.inr (Or.inr (Or.inr (Or.inl (by decide)))))),
   (signup_validateForm_rejects "a@b.com" "Abcd1234" "Abcd1234" "12").2
      (Or.inr (Or.inr (Or.inr (Or.inr (Or.inr (by decide))))))⟩

/-- C6: a hash whose extracted path is not in the known-route list makes
the router load the home view and run its initializer. -/
theorem handleRoute_unknown (hash : String)
    (h : knownRoutes.contains (routePath hash) = false) :
    handleRoute hash = "home" ∧ loadView (handleRoute hash) = some "initHome" := by
  have h1 : handleRoute hash = "home" := by
    unfold handleRoute
    rw [h]
    simp
  exact ⟨h1, by rw [h1]; rfl⟩

/-- C6 witness: a concrete unregistered hash path falls back to home. -/
theorem handleRoute_unknown_witness :
    handleRoute "#/xyz" = "home" ∧ loadView (handleRoute "#/xyz") = some "initHome" :=
  handleRoute_unknown "#/xyz" (by decide)

/-- C7: a reset-password hash is not a known route, so the router loads
the home view and runs initHome; no revision of the router ever extracts
the token or invokes initResetPassword. -/
theorem handleRoute_resetPassword :
    routePath "#/reset-password/abc123" = "reset-password/abc123"
      ∧ knownRoutes.contains "reset-password/abc123" = false
      ∧ handleRoute "#/reset-password/abc123" = "home"
      ∧ loadView (handleRoute "#/reset-password/abc123") = some "initHome" := by
  decide

/-- C8 counterexample: a 404 response whose payload has a message field
holding the empty string throws the status fallback "HTTP 404", not the
server-supplied message field, because the empty string is falsy. -/
theorem request_empty_message_counterexample :
    request { status := 404, isJson := true
              body := some { message := some "", error := none } }
        = Except.error "HTTP 404"
      ∧ (some (JsonBody.mk (some "") none)).bind JsonBody.message = some "" :=
  ⟨rfl, rfl⟩

/-- C8 (amended): request returns the parsed payload on a 2xx status, and
on a non-2xx status throws the message field when it is a non-empty
string, else the error field when it is a non-empty string, else the
fallback derived from the HTTP status. -/
theorem request_spec (res : HttpResponse) :
    (statusOk res.status = true → request res = .ok (payloadOf res))
      ∧ (∀ m, statusOk res.status = false →
          (payloadOf res).bind JsonBody.message = some m → m ≠ "" →
          request res = .error m)
      ∧ (∀ e, statusOk res.status = false →
          ((payloadOf res).bind JsonBody.message = none
            ∨ (payloadOf res).bind JsonBody.message = some "") →
          (payloadOf res).bind JsonBody.error = some e → e ≠ "" →
          request res = .error e)
      ∧ (statusOk res.status = false →
          ((payloadOf res).bind JsonBody.message = none
            ∨ (payloadOf res).bind JsonBody.message = some "") →
          ((payloadOf res).bind JsonBody.error = none
            ∨ (payloadOf res).bind JsonBody.error = some "") →
          request res = .error ("HTTP " ++ toString res.status)) := by
  refine ⟨fun h => by simp [request, h], fun m h hm hne => ?_, fun e h hm he hne => ?_,
    fun h hm he => ?_⟩
  · simp [request, h, errorMessageOf, truthyString, hm, hne]
  · rcases hm with hm | hm <;>
      simp [request, h, errorMessageOf, truthyString, hm, he, hne]
  · rcases hm with hm | hm <;> rcases he with he | he <;>
      simp [request, h, errorMessageOf, truthyString, hm, he]

/-- C8 witness: a 2xx payload return, the message field, the error field
and the fallback at concrete responses. -/
theorem request_spec_witness :
    request { status := 201, isJson := true
              body := some { message := some "created", error := none } }
        = .ok (some { message := some "created", error := none })
      ∧ request { status := 404, isJson := true
                  body := some { message := some "nope", error := none } }
          = .error "nope"
      ∧ request { status := 500, isJson := true
                  body := some { message := none, error := some "boom" } }
          = .error "boom"
      ∧ request { status := 502, isJson := false, body := none }
          = .error ("HTTP " ++ toString 502) :=
  ⟨(request_spec _).1 (by decide),
   (request_spec _).2.1 "nope" (by decide) (by decide) (by decide),
   (request_spec _).2.2.1 "boom" (by decide) (Or.inl (by decide)) (by decide) (by decide),
   (request_spec _).2.2.2 (by decide) (Or.inl (by decide)) (Or.inl (by decide))⟩

/-- C10 counterexample: a task whose status is "constructor" hits the
inherited Object.prototype.constructor through the statusMap lookup: the
truthy non-string is returned, the bucket guard fails, and the task
lands in no bucket, so with one task the bucket sizes sum to 0, not 1,
and the status does not default to pending. -/
theorem bucketize_proto_counterexample :
    normalizeStatus (some "constructor") = .junk
      ∧ bucketsSize (bucketize [⟨some "constructor"⟩]) = 0
      ∧ ([⟨some "constructor"⟩] : List Task).length = 1 := by
  decide

/-- With a status not naming an inherited prototype property,
normalizeStatus lands in one of the three column keys. -/
lemma normalizeStatus_mem (s : Option String) (h : hitsProto s = false) :
    normalizeStatus s = .str "pending" ∨ normalizeStatus s = .str "progress"
      ∨ normalizeStatus s = .str "completed" := by
  cases s with
  | none => left; rfl
  | some v =>
    simp only [hitsProto, decide_eq_false_iff_not] at h
    simp only [normalizeStatus, statusMapLookup]
    split_ifs <;> simp_all

/-- Each forEach step on a task whose status avoids the prototype keys
grows the total bucket size by exactly one. -/
lemma addToBuckets_size (b : Buckets) (t : Task) (h : hitsProto t.status = false) :
    bucketsSize (addToBuckets b t) = bucketsSize b + 1 := by
  rcases normalizeStatus_mem t.status h with h1 | h1 | h1 <;>
    simp [addToBuckets, h1, bucketsSize] <;> omega

/-- The fold over a task list avoiding the prototype keys adds one per
task to the bucket sizes. -/
lemma foldl_addToBuckets_size (tasks : List Task) (b : Buckets)
    (h : ∀ t ∈ tasks, hitsProto t.status = false) :
    bucketsSize (tasks.foldl addToBuckets b) = bucketsSize b + tasks.length := by
  induction tasks generalizing b with
  | nil => simp
  | cons t ts ih =>
    rw [List.foldl_cons,
      ih (addToBuckets b t) (fun u hu => h u (List.mem_cons_of_mem t hu)),
      addToBuckets_size b t (h t (List.mem_cons_self t ts)), List.length_cons]
    omega

/-- C10 (amended): for a fetched task list in which no lowercased status
names an inherited Object.prototype property, the dashboard bucket
assignment puts every task in exactly one of the three columns, a
missing status and any other unrecognized status normalize to pending,
and the three bucket sizes sum to the length of the task list; a status
hitting the prototype chain instead yields a truthy non-string and the
task is dropped from all columns. -/
theorem bucketize_partition (tasks : List Task)
    (h : ∀ t ∈ tasks, hitsProto t.status = false) :
    (bucketize tasks).pending.length + (bucketize tasks).progress.length
        + (bucketize tasks).completed.length = tasks.length
      ∧ normalizeStatus none = .str "pending"
      ∧ (∀ s, hitsProto s = false →
          normalizeStatus s = .str "pending" ∨ normalizeStatus s = .str "progress"
            ∨ normalizeStatus s = .str "completed")
      ∧ (∀ v : String, (jsToLowerCase v) ∉ statusKeys → (jsToLowerCase v) ∉ protoKeys →
          normalizeStatus (some v) = .str "pending") := by
  refine ⟨?_, rfl, fun s hs => normalizeStatus_mem s hs, fun v h1 h2 => ?_⟩
  · have hsum := foldl_addToBuckets_size tasks ⟨[], [], []⟩ h
    simpa [bucketize, bucketsSize] using hsum
  · simp only [statusKeys, List.mem_cons, List.not_mem_nil, or_false, not_or] at h1
    obtain ⟨e1, e2, e3, e4, e5, e6, e7, e8⟩ := h1
    simp [normalizeStatus, statusMapLookup, e1, e2, e3, e4, e5, e6, e7, e8, h2]

/-- C10 witness: a concrete mixed list whose statuses avoid the
prototype keys partitions with sizes summing to its length, a concrete
recognized status lands in a column, and a concrete unrecognized status
defaults to pending. -/
theorem bucketize_partition_witness :
    (bucketize [⟨some "Pendiente"⟩, ⟨none⟩, ⟨some "weird"⟩, ⟨some "done"⟩]).pending.length
        + (bucketize [⟨some "Pendiente"⟩, ⟨none⟩, ⟨some "weird"⟩, ⟨some "done"⟩]).progress.length
        + (bucketize [⟨some "Pendiente"⟩, ⟨none⟩, ⟨some "weird"⟩, ⟨some "done"⟩]).completed.length
        = 4
      ∧ (normalizeStatus (some "done") = .str "pending"
          ∨ normalizeStatus (some "done") = .str "progress"
          ∨ normalizeStatus (some "done") = .str "completed")
      ∧ normalizeStatus (some "weird") = .str "pending" :=
  ⟨(bucketize_partition [⟨some "Pendiente"⟩, ⟨none⟩, ⟨some "weird"⟩, ⟨some "done"⟩]
      (by decide)).1,
   (bucketize_partition [] (fun t ht => absurd ht (List.not_mem_nil t))).2.2.1
      (some "done") (by decide),
   (bucketize_partition [] (fun t ht => absurd ht (List.not_mem_nil t))).2.2.2
      "weird" (by decide) (by decide)⟩

end Tudu
